import Mathlib

/-!
Verification of the TVBoy cartridge bank-switching scheme
(src/src/emucore/CartTVBoy.cxx) against its specification.

The file shallowly embeds `CartridgeTVBoy` as pure functions on an explicit
state record.  Code present in the repository (`checkSwitchBank`, `bank`,
`save`, `load` of `CartridgeTVBoy`) is translated directly from the source.
Code of the repository that is not part of the provided sources — the base
class `CartridgeEnhanced` (its `bank`, `reset`, `save`, `load`, the constant
`ADDR_MASK`, `romBankCount()`) and the `Serializer` stream — is modelled from
the specification; each such definition carries a doc comment saying so.
-/

namespace TVBoy

/-- The mutable bank state of a `CartridgeTVBoy` instance: the currently
selected bank and the self-locking flag `myBankingDisabled`. -/
structure CartState where
  currentBank : Nat
  myBankingDisabled : Bool
deriving DecidableEq, Repr

/-- Modelled from the spec: `ADDR_MASK` is declared by the missing base class
`CartridgeEnhanced`.  The spec describes a decoder that "masks off mirrored
address bits" of the console's cartridge address space; the hot range
`[0x1800, 0x187F]` used by `checkSwitchBank` fixes the mask as the 13-bit
(8 KB) bus mask `0x1FFF`. -/
def ADDR_MASK : Nat := 0x1FFF

/-- Modelled from the spec: `romBankCount()` of the missing base class returns
image size divided by bank size.  `CartridgeTVBoy`'s constructor fixes the
image size at 512 KB, and the window/bank size is 4 KB, giving 128 banks. -/
def romBankCount : Nat := 128

/-- Modelled from the spec: bank size is the 4 KB address window. -/
def bankSize : Nat := 4096

/-- Modelled from the spec: the ROM image size fixed by the constructor
(`512_KB`). -/
def romSize : Nat := 512 * 1024

/-- Modelled from the spec: the freshly constructed power-on state —
unlocked, bank 0. -/
def initialState : CartState := ⟨0, false⟩

/-- Modelled from the spec: `CartridgeEnhanced::bank` (missing base class).
The spec says any bank-select value is "masked/modulo-reduced against
`bankCount` before use", and that "re-selecting the same bank is a no-op
returning no change".  Returns the `banked` flag (whether a change happened)
and the new state. -/
def enhancedBank (s : CartState) (b : Nat) : Bool × CartState :=
  let b := b % romBankCount
  if b = s.currentBank then (false, s)
  else (true, { s with currentBank := b })

/-- `CartridgeTVBoy::bank` (from src/src/emucore/CartTVBoy.cxx):
returns `false` immediately when `myBankingDisabled`; otherwise delegates to
the base class and, when the switch happened and the requested bank argument
is non-zero, sets `myBankingDisabled`. -/
def tvboyBank (s : CartState) (b : Nat) : Bool × CartState :=
  if s.myBankingDisabled then (false, s)
  else
    let r := enhancedBank s b
    if r.1 && b != 0 then (r.1, { r.2 with myBankingDisabled := true })
    else r

/-- The hot-range test of `CartridgeTVBoy::checkSwitchBank`:
`(address & ADDR_MASK) >= 0x1800 && (address & ADDR_MASK) <= 0x187F`. -/
def inHotRange (address : Nat) : Bool :=
  decide (0x1800 ≤ address &&& ADDR_MASK) && decide (address &&& ADDR_MASK ≤ 0x187F)

/-- `CartridgeTVBoy::checkSwitchBank` (from src/src/emucore/CartTVBoy.cxx):
if the masked address lies in the hot range, calls
`bank(address & (romBankCount() - 1))` and returns `true`; otherwise returns
`false`.  The data value parameter is unnamed and unused in the source. -/
def checkSwitchBank (s : CartState) (address : Nat) (_value : Nat) : Bool × CartState :=
  if inHotRange address then
    (true, (tvboyBank s (address &&& (romBankCount - 1))).2)
  else
    (false, s)

/-- Modelled from the spec: `reset()` of the missing base class "clears
`locked` and restores bank 0 — the canonical power-on state". -/
def reset (_s : CartState) : CartState := ⟨0, false⟩

/-- The states reachable from the freshly constructed instance through bus
accesses (`checkSwitchBank`), direct `bank` calls, and `reset`. -/
inductive Reachable : CartState → Prop where
  | init : Reachable initialState
  | step_access (s : CartState) (a v : Nat) :
      Reachable s → Reachable (checkSwitchBank s a v).2
  | step_bank (s : CartState) (k : Nat) :
      Reachable s → Reachable (tvboyBank s k).2
  | step_reset (s : CartState) : Reachable s → Reachable (reset s)

/-! ## Persistence

The `Serializer` class is not in the provided sources.  Modelled from the
spec: the persistence stream is "an ordered sequence of primitive-typed
fields (booleans, integers)"; reading a field of the wrong type or reading
past the end is a stream read failure. -/

/-- A primitive-typed field of the persistence stream (spec §6). -/
inductive SField where
  | fbool (b : Bool)
  | fnat (v : Nat)
deriving DecidableEq, Repr

/-- Modelled from the spec: `Serializer::getBool`.  Reads the next field;
fails (`none`) on end-of-stream or when the field is not a boolean.  A failed
typed read still consumes the offending field, as a byte-stream read extracts
its bytes before validation. -/
def getBoolF : List SField → Option Bool × List SField
  | SField.fbool b :: rest => (some b, rest)
  | SField.fnat _ :: rest => (none, rest)
  | [] => (none, [])

/-- Modelled from the spec: the integer read of the stream.  Fails on
end-of-stream or a non-integer field, consuming the offending field. -/
def getNatF : List SField → Option Nat × List SField
  | SField.fnat v :: rest => (some v, rest)
  | SField.fbool _ :: rest => (none, rest)
  | [] => (none, [])

/-- An output stream whose writes may start failing: `capacity = some n`
means `n` more writes succeed and every later write fails (a broken stream
stays broken); `capacity = none` never fails. -/
structure OutStream where
  data : List SField
  capacity : Option Nat
deriving DecidableEq, Repr

/-- Write one field to the output stream; reports whether the write
succeeded. -/
def putField (o : OutStream) (f : SField) : Bool × OutStream :=
  match o.capacity with
  | none => (true, { o with data := o.data ++ [f] })
  | some 0 => (false, o)
  | some (n + 1) => (true, { data := o.data ++ [f], capacity := some n })

/-- Modelled from the spec: `CartridgeEnhanced::save` (missing base class)
writes the base share of `BankState` — the current bank, an integer field —
first, in fixed order, and reports a write failure by returning `false`. -/
def enhancedSave (s : CartState) (o : OutStream) : Bool × OutStream :=
  putField o (SField.fnat s.currentBank)

/-- Modelled from the spec: `CartridgeEnhanced::load` (missing base class)
reads the base fields back in the order `save` wrote them, staging into a
temporary and committing only on success; on a read failure it returns
`false` with the base state unchanged. -/
def enhancedLoad (s : CartState) (stream : List SField) : Bool × CartState × List SField :=
  match getNatF stream with
  | (some v, rest) => (true, { s with currentBank := v % romBankCount }, rest)
  | (none, rest) => (false, s, rest)

/-- `CartridgeTVBoy::save` (from src/src/emucore/CartTVBoy.cxx): calls the
base save — discarding its result — then `out.putBool(myBankingDisabled)`,
returning `false` exactly when that write fails. -/
def tvboySave (s : CartState) (o : OutStream) : Bool × OutStream :=
  let r := enhancedSave s o
  putField r.2 (SField.fbool s.myBankingDisabled)

/-- `CartridgeTVBoy::load` (from src/src/emucore/CartTVBoy.cxx): calls the
base load — discarding its result — then `myBankingDisabled = in.getBool()`,
returning `false` exactly when that read fails (the assignment then never
happens). -/
def tvboyLoad (s : CartState) (stream : List SField) : Bool × CartState × List SField :=
  let r := enhancedLoad s stream
  match getBoolF r.2.2 with
  | (some b, rest) => (true, { r.2.1 with myBankingDisabled := b }, rest)
  | (none, rest) => (false, r.2.1, rest)

/-! ## Helper lemmas -/

/-- The bank computed by `checkSwitchBank`, `address & (romBankCount() - 1)`,
equals the decoded offset `address & ADDR_MASK` reduced modulo the bank
count: the bank mask selects the low 7 bits, a subset of the 13 address
bits. -/
lemma bank_mask_eq (a : Nat) :
    a &&& (romBankCount - 1) = (a &&& ADDR_MASK) % romBankCount := by
  have h1 : a &&& 127 = a % 128 := by
    simpa using Nat.and_pow_two_sub_one_eq_mod a 7
  have h2 : a &&& 8191 = a % 8192 := by
    simpa using Nat.and_pow_two_sub_one_eq_mod a 13
  have h3 : (a % 8192) % 128 = a % 128 :=
    Nat.mod_mod_of_dvd a (by norm_num)
  show a &&& 127 = (a &&& 8191) % 128
  rw [h1, h2, h3]

lemma enhancedBank_lt (s : CartState) (b : Nat) (h : s.currentBank < romBankCount) :
    (enhancedBank s b).2.currentBank < romBankCount := by
  unfold enhancedBank
  dsimp only
  split
  · exact h
  · exact Nat.mod_lt _ (by decide)

lemma tvboyBank_lt (s : CartState) (b : Nat) (h : s.currentBank < romBankCount) :
    (tvboyBank s b).2.currentBank < romBankCount := by
  unfold tvboyBank
  split
  · exact h
  · dsimp only
    split
    · exact enhancedBank_lt s b h
    · exact enhancedBank_lt s b h

lemma checkSwitchBank_lt (s : CartState) (a v : Nat) (h : s.currentBank < romBankCount) :
    (checkSwitchBank s a v).2.currentBank < romBankCount := by
  unfold checkSwitchBank
  split
  · exact tvboyBank_lt _ _ h
  · exact h

/-- In every reachable state the current bank index is below the bank
count. -/
lemma reachable_currentBank_lt (s : CartState) (h : Reachable s) :
    s.currentBank < romBankCount := by
  induction h with
  | init => decide
  | step_access s a v _ ih => exact checkSwitchBank_lt s a v ih
  | step_bank s k _ ih => exact tvboyBank_lt s k ih
  | step_reset s _ _ => simp [reset, romBankCount]

/-- The locked state reached from power-on by the bus access `0x1803`
(hot range, encoded bank 3). -/
lemma reachable_three_locked : Reachable (⟨3, true⟩ : CartState) := by
  have h := Reachable.step_access initialState 0x1803 0 Reachable.init
  have e : (checkSwitchBank initialState 0x1803 0).2 = ⟨3, true⟩ := by decide
  rwa [e] at h

/-- From the fresh state, `bank k` for an in-range non-zero `k` performs the
switch and sets the lock. -/
lemma fresh_bank_switch (k : Nat) (hk : k < romBankCount) (hnz : k ≠ 0) :
    tvboyBank initialState k = (true, ⟨k, true⟩) := by
  unfold tvboyBank enhancedBank initialState
  simp [Nat.mod_eq_of_lt hk, hnz]

/-- A locked instance rejects every `bank` call without changing state. -/
lemma locked_noop (s : CartState) (h : s.myBankingDisabled = true) (k : Nat) :
    tvboyBank s k = (false, s) := by
  unfold tvboyBank
  simp [h]

/-- `CartridgeEnhanced::load` (as modelled) never touches the derived field
`myBankingDisabled`. -/
lemma enhancedLoad_flag (s : CartState) (st : List SField) :
    (enhancedLoad s st).2.1.myBankingDisabled = s.myBankingDisabled := by
  unfold enhancedLoad
  rcases hg : getNatF st with ⟨o, rest⟩
  cases o <;> simp [hg]

/-! ## Claim theorems -/

/-- Claim C1 — from the freshly constructed state (unlocked, bank 0), a
`bank(k)` call that switches to a non-zero bank `k` sets `myBankingDisabled`
in the same transition, while `bank(0)` while still at bank 0 leaves the
state at bank 0 with the lock still false. -/
theorem first_nonzero_switch_sets_lock (k : Nat)
    (hk : k < romBankCount) (hnz : k ≠ 0) :
    tvboyBank initialState k = (true, ⟨k, true⟩) ∧
    tvboyBank initialState 0 = (false, initialState) := by
  refine ⟨fresh_bank_switch k hk hnz, ?_⟩
  decide

/-- Witness for C1 at the concrete bank 3. -/
theorem first_nonzero_switch_sets_lock_witness :
    tvboyBank initialState 3 = (true, ⟨3, true⟩) ∧
    tvboyBank initialState 0 = (false, initialState) :=
  first_nonzero_switch_sets_lock 3 (by decide) (by decide)

/-- Claim C2 — once `myBankingDisabled` is true, no `bank` call and no bus
access changes the state; a hot-range access is still recognized
(`checkSwitchBank` returns `true`) but produces no bank change. -/
theorem locked_state_is_frozen (s : CartState)
    (h : s.myBankingDisabled = true) (k a v : Nat) :
    tvboyBank s k = (false, s) ∧
    (checkSwitchBank s a v).2 = s ∧
    (inHotRange a = true → (checkSwitchBank s a v).1 = true) := by
  refine ⟨locked_noop s h k, ?_, ?_⟩
  · unfold checkSwitchBank
    split
    · rw [locked_noop s h]
    · rfl
  · intro hhot
    unfold checkSwitchBank
    simp [hhot]

/-- Witness for C2 at the locked state (bank 3) with a hot-range access. -/
theorem locked_state_is_frozen_witness :
    tvboyBank ⟨3, true⟩ 5 = (false, ⟨3, true⟩) ∧
    (checkSwitchBank ⟨3, true⟩ 0x1805 0).2 = ⟨3, true⟩ ∧
    (checkSwitchBank ⟨3, true⟩ 0x1805 0).1 = true := by
  have h := locked_state_is_frozen ⟨3, true⟩ rfl 5 0x1805 0
  exact ⟨h.1, h.2.1, h.2.2 (by decide)⟩

/-- Claim C3 — `checkSwitchBank` triggers exactly when the masked address
lies in `[0x1800, 0x187F]`: it then attempts a switch to the decoded offset
modulo the bank count and returns `true`; outside the hot range it returns
`false` and changes no state. -/
theorem checkSwitchBank_hot_range_spec (s : CartState) (a v : Nat) :
    ((0x1800 ≤ a &&& ADDR_MASK ∧ a &&& ADDR_MASK ≤ 0x187F) →
      checkSwitchBank s a v =
        (true, (tvboyBank s ((a &&& ADDR_MASK) % romBankCount)).2)) ∧
    (¬(0x1800 ≤ a &&& ADDR_MASK ∧ a &&& ADDR_MASK ≤ 0x187F) →
      checkSwitchBank s a v = (false, s)) := by
  constructor
  · intro hh
    unfold checkSwitchBank
    rw [bank_mask_eq]
    simp [inHotRange, hh.1, hh.2]
  · intro hh
    unfold checkSwitchBank
    rw [if_neg]
    simp only [inHotRange, Bool.and_eq_true, decide_eq_true_eq]
    exact fun hc => hh hc

/-- Witness for C3: a hot-range access and a non-hot access, concretely. -/
theorem checkSwitchBank_hot_range_spec_witness :
    checkSwitchBank initialState 0x1803 0 = (true, ⟨3, true⟩) ∧
    checkSwitchBank initialState 0x1700 0 = (false, initialState) := by
  have h1 := (checkSwitchBank_hot_range_spec initialState 0x1803 0).1 (by decide)
  have h2 := (checkSwitchBank_hot_range_spec initialState 0x1700 0).2 (by decide)
  refine ⟨?_, h2⟩
  rw [h1]
  decide

/-- Claim C4 — in every reachable state `0 ≤ currentBank < bankCount`, hence
`currentBank * bankSize + bankSize ≤ RomImage.size`: bank-select values are
masked before use and never index out of bounds. -/
theorem currentBank_in_range_invariant (s : CartState) (h : Reachable s) :
    s.currentBank < romBankCount ∧
    s.currentBank * bankSize + bankSize ≤ romSize := by
  have hlt := reachable_currentBank_lt s h
  refine ⟨hlt, ?_⟩
  unfold romBankCount at hlt
  unfold bankSize romSize
  omega

/-- Witness for C4 at the reachable locked state (bank 3). -/
theorem currentBank_in_range_invariant_witness :
    (⟨3, true⟩ : CartState).currentBank < romBankCount ∧
    (⟨3, true⟩ : CartState).currentBank * bankSize + bankSize ≤ romSize :=
  currentBank_in_range_invariant ⟨3, true⟩ reachable_three_locked

/-- Claim C5 — `reset()` from any state (in particular a locked one) clears
the lock and restores bank 0, re-enabling bank switching: a subsequent
`bank(k)` with non-zero in-range `k` performs the switch again. -/
theorem reset_unlocks_and_restores_bank0 (s : CartState) (k : Nat)
    (hk : k < romBankCount) (hnz : k ≠ 0) :
    reset s = initialState ∧
    tvboyBank (reset s) k = (true, ⟨k, true⟩) :=
  ⟨rfl, fresh_bank_switch k hk hnz⟩

/-- Witness for C5 from the locked state (bank 3), switching to bank 5
after reset. -/
theorem reset_unlocks_and_restores_bank0_witness :
    reset ⟨3, true⟩ = initialState ∧
    tvboyBank (reset ⟨3, true⟩) 5 = (true, ⟨5, true⟩) :=
  reset_unlocks_and_restores_bank0 ⟨3, true⟩ 5 (by decide) (by decide)

/-- Claim C6 — for every reachable state, `save` into a fresh good stream
followed by `load` of the produced data into a freshly constructed instance
reproduces the identical `currentBank` and `myBankingDisabled`. -/
theorem save_load_roundtrip (s : CartState) (h : Reachable s) :
    tvboyLoad initialState (tvboySave s ⟨[], none⟩).2.data = (true, s, []) := by
  have hlt := reachable_currentBank_lt s h
  obtain ⟨cb, lk⟩ := s
  unfold tvboySave enhancedSave putField tvboyLoad enhancedLoad getNatF getBoolF initialState
  simp [Nat.mod_eq_of_lt hlt]

/-- Witness for C6 at the reachable locked state (bank 3). -/
theorem save_load_roundtrip_witness :
    tvboyLoad initialState (tvboySave ⟨3, true⟩ ⟨[], none⟩).2.data =
      (true, ⟨3, true⟩, []) :=
  save_load_roundtrip ⟨3, true⟩ reachable_three_locked

/-- Counterexample to claim C7 as stated: loading the one-field stream
`[fnat 5]` into the locked state (bank 3) fails at the final `getBool`, yet
the resulting state is `⟨5, true⟩` — the base field `currentBank` was already
overwritten by `CartridgeEnhanced::load` while `myBankingDisabled` kept its
old value: a mix of old and new, not the untouched pre-call state. -/
theorem load_failure_leaves_mixed_state :
    tvboyLoad ⟨3, true⟩ [SField.fnat 5] = (false, ⟨5, true⟩, []) ∧
    (⟨5, true⟩ : CartState) ≠ ⟨3, true⟩ := by
  decide

/-- Claim C7 as amended — when `load` fails (the `getBool` of
`myBankingDisabled` fails), the derived field `myBankingDisabled` is left
unchanged, but the base fields hold whatever `CartridgeEnhanced::load`
committed before the failure, so the overall `BankState` can mix old and new
values. -/
theorem load_failure_keeps_flag_commits_base (s : CartState)
    (stream : List SField) (h : (tvboyLoad s stream).1 = false) :
    (tvboyLoad s stream).2.1.myBankingDisabled = s.myBankingDisabled ∧
    (tvboyLoad s stream).2.1.currentBank =
      (enhancedLoad s stream).2.1.currentBank := by
  have hload : tvboyLoad s stream =
      match getBoolF (enhancedLoad s stream).2.2 with
      | (some b, rest) =>
          (true, { (enhancedLoad s stream).2.1 with myBankingDisabled := b }, rest)
      | (none, rest) => (false, (enhancedLoad s stream).2.1, rest) := rfl
  rcases hg : getBoolF (enhancedLoad s stream).2.2 with ⟨o, rest⟩
  cases o with
  | none =>
      rw [hload, hg]
      exact ⟨enhancedLoad_flag s stream, rfl⟩
  | some b =>
      rw [hload, hg] at h
      simp at h

/-- Witness for the amended C7 at the failing load of `[fnat 5]` into the
locked state (bank 3). -/
theorem load_failure_keeps_flag_commits_base_witness :
    (tvboyLoad ⟨3, true⟩ [SField.fnat 5]).2.1.myBankingDisabled = true ∧
    (tvboyLoad ⟨3, true⟩ [SField.fnat 5]).2.1.currentBank =
      (enhancedLoad ⟨3, true⟩ [SField.fnat 5]).2.1.currentBank :=
  load_failure_keeps_flag_commits_base ⟨3, true⟩ [SField.fnat 5] (by decide)

/-- Claim C8 fails on the code: `CartridgeTVBoy::load` discards the return
value of `CartridgeEnhanced::load`.  On the stream
`[fbool false, fbool true]` the base integer read fails (wrong field type),
yet the subsequent `getBool` succeeds and `load` returns `true` — a stream
read failure that is not reported to the caller. -/
theorem load_ignores_base_read_failure :
    (enhancedLoad ⟨0, false⟩ [SField.fbool false, SField.fbool true]).1 = false ∧
    tvboyLoad ⟨0, false⟩ [SField.fbool false, SField.fbool true] =
      (true, ⟨0, true⟩, []) := by
  decide

/-- Claim C9 — in every reachable state, re-selecting the currently active
bank is a no-op: it reports no change (`false`) and leaves the state, in
particular `myBankingDisabled`, untouched. -/
theorem bank_same_bank_noop (s : CartState) (h : Reachable s) :
    tvboyBank s s.currentBank = (false, s) := by
  have hlt := reachable_currentBank_lt s h
  unfold tvboyBank
  split
  · next hd => simp_all
  · next hd =>
      have hr : enhancedBank s s.currentBank = (false, s) := by
        unfold enhancedBank
        simp [Nat.mod_eq_of_lt hlt]
      rw [hr]
      simp

/-- Witness for C9: at the reachable locked state (bank 3) and at the fresh
state (bank 0), re-selecting the active bank changes nothing. -/
theorem bank_same_bank_noop_witness :
    tvboyBank ⟨3, true⟩ 3 = (false, ⟨3, true⟩) ∧
    tvboyBank initialState 0 = (false, initialState) :=
  ⟨bank_same_bank_noop ⟨3, true⟩ reachable_three_locked,
   bank_same_bank_noop initialState Reachable.init⟩

/-- Claim C10 — the data byte of a bus access never influences bank
selection: `checkSwitchBank` at the same state and address returns the same
result and the same state for any two data values. -/
theorem checkSwitchBank_ignores_data_value (s : CartState) (a v1 v2 : Nat) :
    checkSwitchBank s a v1 = checkSwitchBank s a v2 := rfl

end TVBoy
